import Mathlib

/-!
Verification of the countme extraction-and-serialization core
(`src/countme/__init__.py`) against its natural-language specification.

The Python source is shallowly embedded: strings are `String` / `List Char`,
Python integers are `Int`, raised exceptions are `Except PyErr`, and the
stateful writer/reader backends are modelled by explicit state values.
-/

namespace Countme

/-- Python exception values raised by the embedded code.  Payloads are kept
structured (rather than formatted messages) where a claim needs to inspect
them: `schemaMismatch` carries both field-name sequences exactly as the
`ReaderError` f-string interpolates both tuples. -/
inductive PyErr where
  | valueError (msg : String)
  | typeError
  | keyError (key : String)
  | nameError (name : String)
  | stopIteration
  | assertionError (msg : String)
  | integrityError
  | schemaMissing
  | schemaMismatch (expected found : List String)
  deriving DecidableEq, Repr

/-- A Python runtime value as stored in record fields / database cells.
The record variants only use `int`, `str` and `None`. -/
inductive PyVal where
  | int (n : Int)
  | str (s : String)
  | none
  deriving DecidableEq, Repr

/-- Python `s.split(sep, maxsplit)` for a one-character separator:
splits at each occurrence left to right, at most `maxsplit` times,
keeping empty chunks. -/
def pysplit (sep : Char) (maxsplit : Nat) (s : List Char) : List (List Char) :=
  match maxsplit, s with
  | _, [] => [[]]
  | 0, s => [s]
  | k+1, c :: cs =>
    if c = sep then [] :: pysplit sep k cs
    else
      match pysplit sep (k+1) cs with
      | [] => [[c]]
      | h :: t => (c :: h) :: t

/-- Python `s.split(sep)` without a maxsplit bound (a bound of `s.length`
can never be reached). -/
def pysplitAll (sep : Char) (s : List Char) : List (List Char) :=
  pysplit sep s.length s

/-- Decimal value of a digit list (most significant first). -/
def digitsToNat (ds : List Char) : Nat :=
  ds.foldl (fun a c => 10 * a + (c.toNat - 48)) 0

/-- Python `int(s)` on a str argument: an optional sign followed by at least
one ASCII digit; anything else raises ValueError.  (CPython additionally
strips surrounding whitespace and permits underscore separators and Unicode
digits; no input in this development uses those forms.) -/
def pyIntCh (s : List Char) : Except PyErr Int :=
  match s with
  | [] => .error (.valueError "invalid literal for int")
  | c :: ds =>
    if c = '+' then
      if ds ≠ [] ∧ ds.all Char.isDigit then .ok (digitsToNat ds)
      else .error (.valueError "invalid literal for int")
    else if c = '-' then
      if ds ≠ [] ∧ ds.all Char.isDigit then .ok (-(digitsToNat ds : Int))
      else .error (.valueError "invalid literal for int")
    else
      if (c :: ds).all Char.isDigit then .ok (digitsToNat (c :: ds))
      else .error (.valueError "invalid literal for int")

/-- Python slice `s[a:b]` (for `0 ≤ a ≤ b`). -/
def pyslice (s : List Char) (a b : Nat) : List Char :=
  (s.drop a).take (b - a)

/-- `MONTHIDX`: the fixed month-abbreviation table from the source. -/
def MONTHIDX (m : List Char) : Option Nat :=
  if m = "Jan".data then some 1
  else if m = "Feb".data then some 2
  else if m = "Mar".data then some 3
  else if m = "Apr".data then some 4
  else if m = "May".data then some 5
  else if m = "Jun".data then some 6
  else if m = "Jul".data then some 7
  else if m = "Aug".data then some 8
  else if m = "Sep".data then some 9
  else if m = "Oct".data then some 10
  else if m = "Nov".data then some 11
  else if m = "Dec".data then some 12
  else none

/-- `COUNTME_EPOCH` from the source: 00:00:00 Mon Jan 5 1970 UTC. -/
def COUNTME_EPOCH : Int := 345600

/-- `WEEK_LEN` from the source: seconds per week. -/
def WEEK_LEN : Int := 7 * (24 * 60 * 60)

/-- `weeknum(timestamp)` from the source:
`(int(timestamp) - COUNTME_EPOCH) // WEEK_LEN`, where `//` is Python
floor division (`Int.fdiv`). -/
def weeknum (timestamp : Int) : Int :=
  (timestamp - COUNTME_EPOCH).fdiv WEEK_LEN

/-- Leap-year test used by `datetime` (proleptic Gregorian). -/
def isLeap (y : Int) : Bool :=
  y % 4 = 0 ∧ (y % 100 ≠ 0 ∨ y % 400 = 0)

/-- Days in a month of a given year, as validated by the `datetime`
constructor. -/
def daysInMonth (y : Int) (m : Nat) : Nat :=
  match m with
  | 1 => 31 | 3 => 31 | 5 => 31 | 7 => 31 | 8 => 31 | 10 => 31 | 12 => 31
  | 4 => 30 | 6 => 30 | 9 => 30 | 11 => 30
  | 2 => if isLeap y then 29 else 28
  | _ => 0

/-- A Python `datetime` with a fixed-offset timezone.  Python `timezone`
objects compare equal exactly when their offsets are equal, so the offset
in minutes identifies the timezone (`timezone.utc` has offset 0). -/
structure PyDatetime where
  year : Nat
  month : Nat
  day : Nat
  hour : Nat
  minute : Nat
  second : Nat
  microsecond : Nat
  tzOffsetMinutes : Int
  deriving DecidableEq, Repr

/-- The `datetime(...)` constructor with its field validation:
`MINYEAR ≤ year ≤ MAXYEAR`, `1 ≤ month ≤ 12`, `1 ≤ day ≤ daysInMonth`,
`hour ≤ 23`, `minute ≤ 59`, `second ≤ 59`; a violation raises ValueError. -/
def mkDatetime (y mo d h mi s : Int) (tzmin : Int) : Except PyErr PyDatetime :=
  if 1 ≤ y ∧ y ≤ 9999 ∧ 1 ≤ mo ∧ mo ≤ 12 ∧ 1 ≤ d ∧ d ≤ (daysInMonth y mo.toNat : Int)
      ∧ 0 ≤ h ∧ h ≤ 23 ∧ 0 ≤ mi ∧ mi ≤ 59 ∧ 0 ≤ s ∧ s ≤ 59 then
    .ok ⟨y.toNat, mo.toNat, d.toNat, h.toNat, mi.toNat, s.toNat, 0, tzmin⟩
  else
    .error (.valueError "datetime field out of range")

/-- `timezone(timedelta(minutes=offmin))`: valid only for offsets strictly
between -24 and +24 hours, otherwise ValueError. -/
def mkTimezone (offmin : Int) : Except PyErr Int :=
  if -1440 < offmin ∧ offmin < 1440 then .ok offmin
  else .error (.valueError "offset must be a timedelta strictly between -timedelta(hours=24) and timedelta(hours=24)")

/-- `offset_to_timezone(offset)` from the source: converts a UTC offset text
like `-0400` to a timezone via `60*int(offset[1:3]) + int(offset[3:5])`,
negated when `offset[0] == '-'`.  The subscript `offset[0]` is only reached
after both `int` calls succeed, which forces the string to be nonempty, so
modelling it with `headD` is exact. -/
def offset_to_timezone (off : List Char) : Except PyErr Int := do
  let h ← pyIntCh (pyslice off 1 3)
  let m ← pyIntCh (pyslice off 3 5)
  let offmin : Int := 60 * h + m
  let offmin := if off.headD ' ' = '-' then -offmin else offmin
  mkTimezone offmin

/-- `parse_logtime(logtime)` from the source, on the character list of the
input.  Mirrors the split/unpack structure: `logtime.split(" ", 1)` must give
exactly two parts, the first splits on `":"` (maxsplit 3) into four parts,
whose first splits on `"/"` (maxsplit 2) into three parts; a failed unpack
raises ValueError, an unknown month raises KeyError, and the numeric parts
go through `int`.  `+0000`/`-0000` short-circuit to UTC. -/
def logtimeTz (off : List Char) : Except PyErr Int :=
  if off = "+0000".data ∨ off = "-0000".data then .ok 0
  else offset_to_timezone off

/-- `MONTHIDX[month]` as an expression: a subscript miss raises KeyError. -/
def monthIdxOf (mon : List Char) : Except PyErr Int :=
  match MONTHIDX mon with
  | some m => .ok (m : Int)
  | none => .error (.keyError (String.mk mon))

def parseLogtimeCh (logtime : List Char) : Except PyErr PyDatetime :=
  match pysplit ' ' 1 logtime with
  | [dt, off] =>
    match pysplit ':' 3 dt with
    | [dateCh, hh, mm, ss] =>
      match pysplit '/' 2 dateCh with
      | [dd, mon, yyyy] => do
        let tz ← logtimeTz off
        let y ← pyIntCh yyyy
        let mo ← monthIdxOf mon
        let d ← pyIntCh dd
        let h ← pyIntCh hh
        let mi ← pyIntCh mm
        let s ← pyIntCh ss
        mkDatetime y mo d h mi s tz
      | _ => .error (.valueError "not enough values to unpack")
    | _ => .error (.valueError "not enough values to unpack")
  | _ => .error (.valueError "not enough values to unpack")

/-- `parse_logtime` on a `String`. -/
def parse_logtime (logtime : String) : Except PyErr PyDatetime :=
  parseLogtimeCh logtime.data

/-! ### The general-purpose parser (`strptime_logtime`) -/

/-- Greedy match of up to `maxd` digits (at least one), as a regex `\d{1,maxd}`
does; returns the decimal value and the rest of the input. -/
def takeDigits (maxd : Nat) (s : List Char) : Option (Nat × List Char) :=
  let ds := (s.take maxd).takeWhile Char.isDigit
  if ds = [] then Option.none else some (digitsToNat ds, s.drop ds.length)

/-- Match of exactly `n` digits. -/
def takeDigitsExact (n : Nat) (s : List Char) : Option (Nat × List Char) :=
  let ds := s.take n
  if ds.length = n ∧ ds.all Char.isDigit then some (digitsToNat ds, s.drop n)
  else Option.none

/-- Match one literal character. -/
def lit (c : Char) (s : List Char) : Option (List Char) :=
  match s with
  | x :: rest => if x = c then some rest else Option.none
  | [] => Option.none

/-- ASCII lowercasing, used for the case-insensitive month-name match. -/
def asciiLower (c : Char) : Char :=
  if 'A' ≤ c ∧ c ≤ 'Z' then Char.ofNat (c.toNat + 32) else c

/-- The twelve month abbreviations, in order. -/
def monthNames : List (List Char) :=
  ["Jan".data, "Feb".data, "Mar".data, "Apr".data, "May".data, "Jun".data,
   "Jul".data, "Aug".data, "Sep".data, "Oct".data, "Nov".data, "Dec".data]

/-- The `%b` directive: a three-letter month abbreviation, matched
case-insensitively against the table. -/
def month3 (s : List Char) : Option (Nat × List Char) :=
  match monthNames.findIdx? (fun n => n.map asciiLower = (s.take 3).map asciiLower) with
  | some i => some (i + 1, s.drop 3)
  | Option.none => Option.none

/-- The `%z` directive in the forms that can occur here: a sign, two hour
digits, an optional colon, and two minute digits not exceeding 59 (the
regex alternative `[+-]\d\d:?[0-5]\d`), or the literal `Z`; yields the
offset in minutes.  (The optional seconds/fraction tail of the directive
cannot occur in the fixed `±HHMM` form and is not modelled.) -/
def parseZ (s : List Char) : Option (Int × List Char) :=
  match s with
  | [] => Option.none
  | sg :: rest0 =>
    if sg = 'Z' then some (0, rest0)
    else if sg = '+' ∨ sg = '-' then do
      let (hh, rest1) ← takeDigitsExact 2 rest0
      let rest2 := if rest1.head? = some ':' then rest1.tail else rest1
      let (mm, rest3) ← takeDigitsExact 2 rest2
      let _ ← if mm ≤ 59 then some () else Option.none
      let off : Int := 60 * (hh : Int) + (mm : Int)
      some (if sg = '-' then -off else off, rest3)
    else Option.none

/-- Modelled from the spec: the regex phase of the standard library
general-purpose parser for the format `%d/%b/%Y:%H:%M:%S %z` — the format
directives translate to `(3[01]|[12]\d|0[1-9]|[1-9])` for `%d`,
the month alternation for `%b`, `\d{4}` for `%Y`, `(2[0-3]|[0-1]\d|\d)`
for `%H`, `([0-5]\d|\d)` for `%M`, `(6[0-1]|[0-5]\d|\d)` for `%S` and the
offset pattern for `%z`; the whole input must be consumed. -/
def strptimeFormatMatch (s0 : List Char) :
    Option (Nat × Nat × Nat × Nat × Nat × Nat × Int) := do
  let (d, s1) ← takeDigits 2 s0
  let _ ← if 1 ≤ d ∧ d ≤ 31 then some () else Option.none
  let s2 ← lit '/' s1
  let (mo, s3) ← month3 s2
  let s4 ← lit '/' s3
  let (y, s5) ← takeDigitsExact 4 s4
  let s6 ← lit ':' s5
  let (h, s7) ← takeDigits 2 s6
  let _ ← if h ≤ 23 then some () else Option.none
  let s8 ← lit ':' s7
  let (mi, s9) ← takeDigits 2 s8
  let _ ← if mi ≤ 59 then some () else Option.none
  let s10 ← lit ':' s9
  let (se, s11) ← takeDigits 2 s10
  let _ ← if se ≤ 61 then some () else Option.none
  let s12 ← lit ' ' s11
  let (offmin, s13) ← parseZ s12
  let _ ← if s13 = [] then some () else Option.none
  pure (d, mo, y, h, mi, se, offmin)

/-- Modelled from the spec: `strptime_logtime(logtime)` from the source
delegates to the standard library parser `datetime.strptime(logtime,
"%d/%b/%Y:%H:%M:%S %z")`, whose implementation lives outside this
repository.  A failed format match raises ValueError; on a match the
timezone and the datetime are constructed with the usual validation. -/
def strptime_logtime (logtime : String) : Except PyErr PyDatetime :=
  match strptimeFormatMatch logtime.data with
  | Option.none => .error (.valueError "time data does not match format")
  | some (d, mo, y, h, mi, se, offmin) => do
      let tz ← mkTimezone offmin
      mkDatetime (y : Int) (mo : Int) (d : Int) (h : Int) (mi : Int) (se : Int) tz

/-! ### Rendering fixed-form timestamps (for quantifying over valid inputs) -/

/-- The decimal digit character for `d % 10`. -/
def digCh (d : Nat) : Char := "0123456789".data.getD (d % 10) '9'

/-- Two-digit zero-padded rendering (faithful for `n < 100`). -/
def pad2 (n : Nat) : List Char := [digCh (n / 10), digCh (n % 10)]

/-- Four-digit zero-padded rendering (faithful for `n < 10000`). -/
def pad4 (n : Nat) : List Char :=
  [digCh (n / 1000), digCh (n / 100), digCh (n / 10), digCh (n % 10)]

/-- The month abbreviation of month `m` (1-12). -/
def monthName (m : Nat) : List Char :=
  match m with
  | 1 => "Jan".data | 2 => "Feb".data | 3 => "Mar".data | 4 => "Apr".data
  | 5 => "May".data | 6 => "Jun".data | 7 => "Jul".data | 8 => "Aug".data
  | 9 => "Sep".data | 10 => "Oct".data | 11 => "Nov".data | 12 => "Dec".data
  | _ => []

/-- The components of a timestamp string of the exact form
`DD/Mon/YYYY:HH:MM:SS ±HHMM`. -/
structure LogTimeParts where
  day : Nat
  month : Nat
  year : Nat
  hour : Nat
  minute : Nat
  second : Nat
  negOff : Bool
  offH : Nat
  offM : Nat
  deriving DecidableEq, Repr

/-- Render the components into the fixed-form timestamp string. -/
def renderLogtime (t : LogTimeParts) : List Char :=
  pad2 t.day ++ '/' :: (monthName t.month ++ '/' :: (pad4 t.year ++
    ':' :: (pad2 t.hour ++ ':' :: (pad2 t.minute ++ ':' :: (pad2 t.second ++
    ' ' :: (if t.negOff then '-' else '+') :: (pad2 t.offH ++ pad2 t.offM))))))

/-- The UTC offset in minutes denoted by the rendered `±HHMM` suffix. -/
def signedOffMinutes (t : LogTimeParts) : Int :=
  if t.negOff then -(60 * (t.offH : Int) + (t.offM : Int))
  else 60 * (t.offH : Int) + (t.offM : Int)

/-- The delimiter/token structure of the exact form
`DD/Mon/YYYY:HH:MM:SS ±HHMM`: 26 characters, with digits, the two slashes,
the three colons, the single space, a sign, and three letters in the month
slot. -/
def fixedFormStructure : List Char → Bool
  | [d1, d2, s1, m1, m2, m3, s2, y1, y2, y3, y4, c1, h1, h2, c2,
     n1, n2, c3, e1, e2, sp, sg, o1, o2, o3, o4] =>
    s1 = '/' && s2 = '/' && c1 = ':' && c2 = ':' && c3 = ':' && sp = ' '
      && (sg = '+' || sg = '-')
      && [d1, d2, y1, y2, y3, y4, h1, h2, n1, n2, e1, e2, o1, o2, o3, o4].all Char.isDigit
      && [m1, m2, m3].all Char.isAlpha
  | _ => false

/-! ### Query strings -/

/-- Value of one hexadecimal digit. -/
def hexDigitVal (c : Char) : Option Nat :=
  if '0' ≤ c ∧ c ≤ '9' then some (c.toNat - 48)
  else if 'a' ≤ c ∧ c ≤ 'f' then some (c.toNat - 87)
  else if 'A' ≤ c ∧ c ≤ 'F' then some (c.toNat - 55)
  else Option.none

/-- Percent-decoding as `urllib.parse.unquote` performs it: a `%` followed
by two hex digits becomes the decoded character, an ill-formed escape is
kept literally.  (CPython decodes multi-byte UTF-8 escape runs; the query
strings in this development are ASCII, where the two coincide.) -/
def unquoteCh : List Char → List Char
  | [] => []
  | [c] => [c]
  | [c, d] => [c, d]
  | c :: a :: b :: rest =>
    if c = '%' then
      match hexDigitVal a, hexDigitVal b with
      | some x, some y => Char.ofNat (16 * x + y) :: unquoteCh rest
      | _, _ => '%' :: unquoteCh (a :: b :: rest)
    else c :: unquoteCh (a :: b :: rest)

/-- `urllib.parse.unquote_plus` on one token: plus signs become spaces,
then percent escapes are decoded. -/
def unquote_plus (s : List Char) : String :=
  String.mk (unquoteCh (s.map (fun c => if c = '+' then ' ' else c)))

/-- Modelled from the spec: `urllib.parse.parse_qsl` (standard library,
outside this repository) with its default arguments, as the source calls it:
split the query on `&`; skip empty chunks; split each chunk on the first
`=`; chunks without `=` and chunks with an empty value are skipped
(`keep_blank_values` is false); names and values are plus/percent-decoded.
The pairs are returned in their order of occurrence. -/
def parse_qsl (qs : String) : List (String × String) :=
  (pysplitAll '&' qs.data).filterMap (fun nv =>
    if nv = [] then Option.none
    else
      match pysplit '=' 1 nv with
      | [n, v] =>
        if v = [] then Option.none
        else some (unquote_plus n, unquote_plus v)
      | _ => Option.none)

/-- Insertion into a Python dict (keys keep their first position, the
stored value is updated in place). -/
def pyDictInsert (d : List (String × String)) (kv : String × String) :
    List (String × String) :=
  match d with
  | [] => [kv]
  | p :: rest => if p.1 = kv.1 then (p.1, kv.2) :: rest else p :: pyDictInsert rest kv

/-- `dict(pairs)`: left-to-right insertion, so the last value for a
duplicated key wins. -/
def pyDict (l : List (String × String)) : List (String × String) :=
  l.foldl pyDictInsert []

/-- `parse_querydict(querystr)` from the source: `dict(parse_qsl(querystr))`. -/
def parse_querydict (querystr : String) : List (String × String) :=
  pyDict (parse_qsl querystr)

/-- `LogItem.queryitems`: `parse_qsl(self.query)`. -/
def queryitems (query : String) : List (String × String) :=
  parse_qsl query

/-- `d.get(k)` on the dict model. -/
def dictGet (d : List (String × String)) (k : String) : Option String :=
  (d.find? (fun p => p.1 = k)).map (·.2)

/-- The value of the last pair with the given key, if any. -/
def lastValue (k : String) (l : List (String × String)) : Option String :=
  ((l.filter (fun p => p.1 = k)).getLast?).map (·.2)

/-! ### The line matcher -/

/-- Days between 1970-01-01 and the given proleptic-Gregorian civil date
(the standard days-from-civil computation `datetime.date` arithmetic
realizes). -/
def daysFromCivil (y : Int) (m d : Nat) : Int :=
  let y2 : Int := if m ≤ 2 then y - 1 else y
  let era : Int := y2.fdiv 400
  let yoe : Int := y2 - era * 400
  let mp : Int := if 2 < m then (m : Int) - 3 else (m : Int) + 9
  let doy : Int := (153 * mp + 2).fdiv 5 + (d : Int) - 1
  let doe : Int := yoe * 365 + yoe.fdiv 4 - yoe.fdiv 100 + doy
  era * 146097 + doe - 719468

/-- `dt.timestamp()` for an aware datetime with whole seconds, already
truncated by the `int(...)` the matchers apply: POSIX seconds of the civil
fields minus the UTC offset. -/
def pyTimestampSecs (dt : PyDatetime) : Int :=
  86400 * daysFromCivil (dt.year : Int) dt.month dt.day
    + 3600 * (dt.hour : Int) + 60 * (dt.minute : Int) + (dt.second : Int)
    - 60 * dt.tzOffsetMinutes

/-- `int(x)` applied to `query.get(...)`: `int(None)` raises TypeError,
a str goes through the usual integer conversion. -/
def pyIntOfOption : Option String → Except PyErr Int
  | Option.none => .error .typeError
  | some s => pyIntCh s.data

/-- The named captures the countme extraction pattern produces.
Modelled from the spec: the pattern-extraction engine
(`src/countme/regex.py`, not present under src/) returns, on a match, a
mapping from these named fields to captured substrings. -/
structure CountmeCaps where
  host : String
  time : String
  query : String
  os_name : String
  os_version : String
  os_variant : String
  os_arch : String
  deriving DecidableEq, Repr

/-- Convert an optional query value to the stored record field
(`query.get` returns None when the key is absent). -/
def optStrVal : Option String → PyVal
  | some s => .str s
  | Option.none => .none

/-- `CountmeMatcher.make_item(match)` from the source: parse the time
capture and take its epoch timestamp, decode the query, and build a
`CountmeItem`; `int(query.get("countme"))` raises for a missing or
non-numeric countme value. -/
def countme_make_item (m : CountmeCaps) : Except PyErr (List PyVal) := do
  let dt ← parse_logtime m.time
  let timestamp : Int := pyTimestampSecs dt
  let query := parse_querydict m.query
  let countme ← pyIntOfOption (dictGet query "countme")
  .ok [.int timestamp, .str m.host, .str m.os_name, .str m.os_version,
       .str m.os_variant, .str m.os_arch, .int countme,
       optStrVal (dictGet query "repo"), optStrVal (dictGet query "arch")]

/-- `LogMatcher.iteritems` from the source: for each line, try the
extraction pattern; a non-matching line is skipped, a matching line is fed
to `make_item`.  The result is the sequence of records the generator
yields, paired with the exception that terminated the iteration, if any
(an exception in `make_item` propagates out of the generator). -/
def iterItems {κ α : Type} (regexMatch : String → Option κ)
    (make_item : κ → Except PyErr α) : List String → List α × Option PyErr
  | [] => ([], Option.none)
  | line :: rest =>
    match regexMatch line with
    | Option.none => iterItems regexMatch make_item rest
    | some m =>
      match make_item m with
      | .error e => ([], some e)
      | .ok item =>
        let (items, err) := iterItems regexMatch make_item rest
        (item :: items, err)

/-- A matched line whose time capture is garbage but whose countme value
is perfectly numeric. -/
def c4BadCaps : CountmeCaps :=
  ⟨"1.2.3.4", "nonsense", "countme=3&repo=fedora&arch=x86_64",
   "Fedora", "32", "workstation", "x86_64"⟩

/-- An extraction function realizable by the countme pattern (its time
capture accepts any bracket-free text): it matches exactly one line. -/
def c4Match (line : String) : Option CountmeCaps :=
  if line = "badline" then some c4BadCaps else Option.none

/-! ### Record variants and the writer/reader abstraction -/

/-- The per-field semantic type of a record variant (the typing annotations
on the NamedTuple fields).  The variants only use text, integer and their
optional forms. -/
inductive FieldTy where
  | int | str | optInt | optStr
  deriving DecidableEq, Repr

/-- Does a runtime value conform to a declared field type? -/
def tyMatches : FieldTy → PyVal → Bool
  | .int, .int _ => true
  | .str, .str _ => true
  | .optInt, .int _ => true
  | .optInt, .none => true
  | .optStr, .str _ => true
  | .optStr, .none => true
  | _, _ => false

/-- A record variant: its class name and its ordered, typed field list. -/
structure ItemTupleSpec where
  name : String
  fields : List (String × FieldTy)
  deriving DecidableEq, Repr

/-- `itemtuple._fields`. -/
def fieldNames (it : ItemTupleSpec) : List String := it.fields.map (·.1)

/-- The `LogItem` variant. -/
def LogItem : ItemTupleSpec :=
  ⟨"LogItem",
   [("host", .str), ("identity", .str), ("time", .str), ("method", .str),
    ("path", .str), ("query", .optStr), ("protocol", .str), ("status", .int),
    ("nbytes", .optInt), ("referrer", .str), ("user_agent", .str)]⟩

/-- The `MirrorItem` variant. -/
def MirrorItem : ItemTupleSpec :=
  ⟨"MirrorItem",
   [("timestamp", .int), ("host", .str), ("repo_tag", .optStr),
    ("repo_arch", .optStr)]⟩

/-- The `CountmeItem` variant. -/
def CountmeItem : ItemTupleSpec :=
  ⟨"CountmeItem",
   [("timestamp", .int), ("host", .str), ("os_name", .str),
    ("os_version", .str), ("os_variant", .str), ("os_arch", .str),
    ("countme", .int), ("repo_tag", .str), ("repo_arch", .str)]⟩

/-- Does a record conform to its variant (right arity, each field of the
declared type)?  NamedTuples do not enforce this at construction; it holds
for every record the matchers emit. -/
def wellTypedItem (it : ItemTupleSpec) (item : List PyVal) : Bool :=
  (item.length == it.fields.length)
    && (it.fields.zip item).all (fun fv => tyMatches fv.1.2 fv.2)

/-- `SQLiteWriter.SQL_TYPE` restricted to the types the variants use. -/
def SQL_TYPE : FieldTy → String
  | .int => "INTEGER NOT NULL"
  | .str => "TEXT NOT NULL"
  | .optInt => "INTEGER"
  | .optStr => "TEXT"

/-- The four writer backends. -/
inductive WriterKind where
  | csv | json | awk | sqlite
  deriving DecidableEq, Repr

/-- A successfully constructed ItemWriter: its backend, variant and
time-index field. -/
structure ItemWriterState where
  kind : WriterKind
  itemtuple : ItemTupleSpec
  timefield : String
  deriving DecidableEq, Repr

/-- `ItemWriter.__init__(fp, itemtuple, timefield)`: the assert that
`timefield` is one of the variant fields runs before `_get_writer`, so on
an assertion failure no backend setup happens.  The second component
records the backend-setup effects performed. -/
def itemWriterInit (kind : WriterKind) (itemtuple : ItemTupleSpec)
    (timefield : String) : Except PyErr ItemWriterState × List String :=
  if timefield ∈ fieldNames itemtuple then
    (.ok ⟨kind, itemtuple, timefield⟩, ["_get_writer"])
  else
    (.error (.assertionError
       ("'" ++ itemtuple.name ++ "' has no time field '" ++ timefield ++ "'")),
     [])

/-- `make_writer(name, ...)` from the source: dispatch on the format name;
an unrecognized name raises ValueError before any writer construction (and
hence before any output resource is touched — the effect list stays
empty). -/
def make_writer (name : String) (itemtuple : ItemTupleSpec)
    (timefield : String) : Except PyErr ItemWriterState × List String :=
  if name = "csv" then itemWriterInit .csv itemtuple timefield
  else if name = "json" then itemWriterInit .json itemtuple timefield
  else if name = "awk" then itemWriterInit .awk itemtuple timefield
  else if name = "sqlite" then itemWriterInit .sqlite itemtuple timefield
  else (.error (.valueError ("Unknown writer '" ++ name ++ "'")), [])

/-- The cell conversion `csv.writer` applies: strings pass through
(quoting on write is undone on read), other values go through `str()`,
None becomes the empty field. -/
def csvCell : PyVal → String
  | .str s => s
  | .int n => toString n
  | .none => ""

/-- A full CSVWriter protocol run (`write_header`, `write_item` per record,
`write_footer` — a no-op): the persisted resource as a sequence of CSV
rows. -/
def csvWriteAll (itemtuple : ItemTupleSpec) (items : List (List PyVal)) :
    List (List String) :=
  fieldNames itemtuple :: items.map (fun item => item.map csvCell)

/-- Python `str.isnumeric` on the ASCII field names that occur here:
nonempty and all digits. -/
def pyIsNumeric (s : String) : Bool :=
  (s ≠ "") ∧ s.data.all Char.isDigit

/-- The schema checks in `ItemReader.__init__` after `_get_reader` has
set the discovered field names: a falsy (empty) discovery raises the
"no field names found" ReaderError (SchemaMissing); a discovered sequence
differing from the declared one raises the "field mismatch" ReaderError,
whose message interpolates both sequences (SchemaMismatch). -/
def itemReaderChecks (itemfields filefields : List String) :
    Except PyErr Unit :=
  if filefields = [] then .error .schemaMissing
  else if filefields ≠ itemfields then
    .error (.schemaMismatch itemfields filefields)
  else .ok ()

/-- A full CSVReader run over a persisted resource: `_get_reader` consumes
the first row as the header (`next` on an empty file raises
StopIteration); if any discovered name is numeric the "header bad/missing"
branch is taken, which crashes with NameError because its message
references the undefined variable `fields`; then the `ItemReader.__init__`
schema checks run; finally each remaining row becomes a record through
`itemtuple._make`, which keeps every cell a string. -/
def csvReadAll (itemtuple : ItemTupleSpec) (file : List (List String)) :
    Except PyErr (List (List PyVal)) :=
  match file with
  | [] => .error .stopIteration
  | header :: rows =>
    if header.any pyIsNumeric then .error (.nameError "fields")
    else do
      let _ ← itemReaderChecks (fieldNames itemtuple) header
      rows.mapM (fun r =>
        if r.length = itemtuple.fields.length then pure (r.map PyVal.str)
        else throw PyErr.typeError)

/-- The single target table of the SQLite backend (default name
`countme_raw`): typed columns and stored rows. -/
structure SqliteTable where
  cols : List (String × String)
  rows : List (List PyVal)
  deriving DecidableEq, Repr

/-- The modelled state of the SQLite database file after a writer run. -/
structure SqliteDb where
  table : Option SqliteTable
  timeIndexOn : Option String
  committed : Bool
  deriving DecidableEq, Repr

/-- Storage of one cell: NULL into a NOT NULL column violates the
constraint (IntegrityError); SQLite affinity converts a lossless integer
literal arriving at an INTEGER column, and numbers arriving at a TEXT
column, and otherwise stores the value as given. -/
def sqliteStoreCell (sqltype : String) (v : PyVal) : Except PyErr PyVal :=
  match v with
  | .none =>
    if sqltype = "INTEGER NOT NULL" ∨ sqltype = "TEXT NOT NULL" then
      .error .integrityError
    else .ok .none
  | .int n =>
    if sqltype = "TEXT NOT NULL" ∨ sqltype = "TEXT" then .ok (.str (toString n))
    else .ok (.int n)
  | .str s =>
    if sqltype = "INTEGER NOT NULL" ∨ sqltype = "INTEGER" then
      match pyIntCh s.data with
      | .ok n => .ok (.int n)
      | .error _ => .ok (.str s)
    else .ok (.str s)

/-- A full SQLiteWriter protocol run on a fresh database: `write_header`
executes CREATE TABLE IF NOT EXISTS with one column per field, typed by
SQL_TYPE; each `write_item` is an INSERT; `write_footer` creates the index
on the time field and commits. -/
def sqliteWriteAll (itemtuple : ItemTupleSpec) (timefield : String)
    (items : List (List PyVal)) : Except PyErr SqliteDb := do
  let cols := itemtuple.fields.map (fun f => (f.1, SQL_TYPE f.2))
  let rows ← items.mapM (fun item =>
    if item.length = cols.length then
      (cols.zip item).mapM (fun cv => sqliteStoreCell cv.1.2 cv.2)
    else throw (.valueError "incorrect number of bindings supplied"))
  pure { table := some ⟨cols, rows⟩, timeIndexOn := some timefield,
         committed := true }

/-- A full SQLiteReader run: `_get_reader` discovers the column names via
PRAGMA table_info (an absent table yields none); the `ItemReader.__init__`
schema checks run; `_iter_rows` SELECTs the declared fields — which, the
check having passed, are exactly the stored columns in order — and each
row becomes a record through `itemtuple._make`. -/
def sqliteReadAll (itemtuple : ItemTupleSpec) (db : SqliteDb) :
    Except PyErr (List (List PyVal)) := do
  let filefields := match db.table with
    | some t => t.cols.map (·.1)
    | Option.none => []
  let _ ← itemReaderChecks (fieldNames itemtuple) filefields
  match db.table with
  | some t => pure t.rows
  | Option.none => pure []

/-- The CSV write-then-read round trip for one variant. -/
def csvRoundTrip (itemtuple : ItemTupleSpec) (items : List (List PyVal)) :
    Except PyErr (List (List PyVal)) :=
  csvReadAll itemtuple (csvWriteAll itemtuple items)

/-- The SQLite write-then-read round trip for one variant. -/
def sqliteRoundTrip (itemtuple : ItemTupleSpec) (timefield : String)
    (items : List (List PyVal)) : Except PyErr (List (List PyVal)) := do
  let db ← sqliteWriteAll itemtuple timefield items
  sqliteReadAll itemtuple db

end Countme

namespace Countme

/-! ## Helper lemmas -/

theorem except_bind_ok {α β : Type} (a : α) (f : α → Except PyErr β) :
    (Except.ok a : Except PyErr α) >>= f = f a := rfl

theorem except_bind_err {α β : Type} (e : PyErr) (f : α → Except PyErr β) :
    (Except.error e : Except PyErr α) >>= f = .error e := rfl

/-! ## C5 -/

/-- C5: for every integer epoch-seconds value, including negative values
before the epoch anchor, `weeknum e` equals the floor of
`(e - 345600) / 604800` taken with real (signed-floor) division — not
truncation toward zero — and, being a plain function of its argument, it
is pure. -/
theorem weeknum_eq_floor (e : Int) :
    weeknum e = ⌊(((e : ℚ) - 345600) / 604800 : ℚ)⌋ := by
  unfold weeknum COUNTME_EPOCH WEEK_LEN
  rw [Int.fdiv_eq_ediv _ (by norm_num)]
  rw [show ((604800 : ℚ)) = ((604800 : ℕ) : ℚ) by norm_num]
  rw [show ((e : ℚ) - 345600) = ((e - 345600 : ℤ) : ℚ) by push_cast; ring]
  rw [Rat.floor_intCast_div_natCast]
  norm_num

/-! ## C9 -/

/-- C9: constructing a writer through the format-name dispatch with any
name outside the recognized set csv/json/awk/sqlite fails with the
"Unknown writer" ValueError at construction time, with the backend effect
list empty — no output resource is touched. -/
theorem make_writer_unknown_format (name : String) (it : ItemTupleSpec)
    (tf : String) (h : name ∉ (["csv", "json", "awk", "sqlite"] : List String)) :
    make_writer name it tf
      = (.error (.valueError ("Unknown writer '" ++ name ++ "'")), []) := by
  simp only [List.mem_cons, List.mem_singleton, not_or] at h
  obtain ⟨h1, h2, h3, h4, -⟩ := h
  unfold make_writer
  simp [h1, h2, h3, h4]

/-- Witness for C9 at the spec's own example name. -/
theorem make_writer_unknown_format_witness :
    "unsupported" ∉ (["csv", "json", "awk", "sqlite"] : List String)
    ∧ make_writer "unsupported" CountmeItem "timestamp"
        = (.error (.valueError ("Unknown writer '" ++ "unsupported" ++ "'")), []) :=
  ⟨by decide,
   make_writer_unknown_format "unsupported" CountmeItem "timestamp" (by decide)⟩

/-! ## C10 -/

/-- C10: for every record variant, backend and requested time field,
ItemWriter construction succeeds exactly when the time field is one of the
variant's declared field names; otherwise it fails with the assertion
error and the backend effect list stays empty, so no backend setup or
output happens, and every successfully constructed writer's time-index
field is a declared field of its variant. -/
theorem itemWriterInit_timefield (kind : WriterKind) (it : ItemTupleSpec)
    (tf : String) :
    ((itemWriterInit kind it tf).1.isOk = true ↔ tf ∈ fieldNames it)
    ∧ (tf ∉ fieldNames it →
        itemWriterInit kind it tf
          = (.error (.assertionError
              ("'" ++ it.name ++ "' has no time field '" ++ tf ++ "'")), [])) := by
  unfold itemWriterInit
  by_cases h : tf ∈ fieldNames it <;> simp [h, Except.isOk, Except.toBool]

/-- Witness for C10: `LogItem` has no field named `timestamp` (its raw time
field is `time`), so the default construction fails before backend setup. -/
theorem itemWriterInit_timefield_witness :
    ("timestamp" ∉ fieldNames LogItem)
    ∧ itemWriterInit .csv LogItem "timestamp"
        = (.error (.assertionError
            ("'" ++ "LogItem" ++ "' has no time field '" ++ "timestamp" ++ "'")), []) :=
  ⟨by decide,
   (itemWriterInit_timefield .csv LogItem "timestamp").2 (by decide)⟩

end Countme

namespace Countme

/-! ## C2 -/

/-- C2: opening a reader against a resource whose discovered field-name
sequence (a nonempty, non-numeric header, i.e. one that was actually
discovered) differs from the declared variant fields in any way — missing
field, extra field, or the same names reordered — fails with the
SchemaMismatch ReaderError naming both sequences: shown for the generic
reader-init checks and for both concrete backends, where the failure is
independent of the stored rows, so it happens at open time before any row
is read and nothing is silently reordered. -/
theorem itemReader_schemaMismatch :
    (∀ itemfields filefields : List String,
        filefields ≠ [] → filefields ≠ itemfields →
        itemReaderChecks itemfields filefields
          = .error (.schemaMismatch itemfields filefields))
    ∧ (∀ (it : ItemTupleSpec) (ff : List String) (rows : List (List String)),
        ff ≠ [] → ff.any pyIsNumeric = false → ff ≠ fieldNames it →
        csvReadAll it (ff :: rows)
          = .error (.schemaMismatch (fieldNames it) ff))
    ∧ (∀ (it : ItemTupleSpec) (cols : List (String × String))
        (rows : List (List PyVal)) (idx : Option String) (com : Bool),
        cols ≠ [] → cols.map (·.1) ≠ fieldNames it →
        sqliteReadAll it ⟨some ⟨cols, rows⟩, idx, com⟩
          = .error (.schemaMismatch (fieldNames it) (cols.map (·.1)))) := by
  refine ⟨?_, ?_, ?_⟩
  · intro itf ff hne hdiff
    simp [itemReaderChecks, hne, hdiff]
  · intro it ff rows hne hnum hdiff
    simp only [csvReadAll, hnum, Bool.false_eq_true, if_false]
    simp [itemReaderChecks, hne, hdiff, Bind.bind, Except.bind]
  · intro it cols rows idx com hne hdiff
    simp only [sqliteReadAll]
    have hmapne : cols.map (·.1) ≠ [] := by
      intro hx
      exact hne (List.map_eq_nil_iff.mp hx)
    simp [itemReaderChecks, hmapne, hdiff, Bind.bind, Except.bind]

/-- Witness for C2: the MirrorItem fields in a different order are
rejected with the mismatch error naming both sequences, by all three
paths. -/
theorem itemReader_schemaMismatch_witness :
    itemReaderChecks (fieldNames MirrorItem)
        ["host", "timestamp", "repo_tag", "repo_arch"]
      = .error (.schemaMismatch (fieldNames MirrorItem)
          ["host", "timestamp", "repo_tag", "repo_arch"])
    ∧ csvReadAll MirrorItem
        [["host", "timestamp", "repo_tag", "repo_arch"], ["h", "1", "", ""]]
      = .error (.schemaMismatch (fieldNames MirrorItem)
          ["host", "timestamp", "repo_tag", "repo_arch"])
    ∧ sqliteReadAll MirrorItem
        ⟨some ⟨[("timestamp", "INTEGER NOT NULL"), ("host", "TEXT NOT NULL")], []⟩,
         some "timestamp", true⟩
      = .error (.schemaMismatch (fieldNames MirrorItem) ["timestamp", "host"]) :=
  ⟨itemReader_schemaMismatch.1 (fieldNames MirrorItem)
      ["host", "timestamp", "repo_tag", "repo_arch"] (by decide) (by decide),
   itemReader_schemaMismatch.2.1 MirrorItem
      ["host", "timestamp", "repo_tag", "repo_arch"] [["h", "1", "", ""]]
      (by decide) (by decide) (by decide),
   itemReader_schemaMismatch.2.2 MirrorItem
      [("timestamp", "INTEGER NOT NULL"), ("host", "TEXT NOT NULL")] []
      (some "timestamp") true (by decide) (by decide)⟩

/-! ## C3 -/

/-- C3: where the code contradicts its own intent.  A CSV resource whose
first row is numeric-looking data (the absent-header case the code itself
detects) is routed to the "header bad/missing" branch, whose error
message references the undefined variable `fields`, so it crashes with a
NameError instead of the intended ReaderError; a resource with no rows at
all escapes as StopIteration from `next()`.  Only an empty discovered
header row actually produces the SchemaMissing ReaderError. -/
theorem csvReader_absent_header_bug :
    csvReadAll CountmeItem [["1234", "fedora", "x86_64"]]
      = .error (.nameError "fields")
    ∧ csvReadAll CountmeItem [] = .error .stopIteration
    ∧ csvReadAll CountmeItem [[]] = .error .schemaMissing :=
  ⟨rfl, rfl, rfl⟩

/-! ## C1 -/

/-- C1 fails as stated: a CSV round trip of one MirrorItem record returns
every field as text — the integer timestamp comes back as the string
"345600" and the two None fields as empty strings — so the sequence read
back is not equal to the original sequence. -/
theorem csvRoundTrip_not_identity :
    csvRoundTrip MirrorItem
        [[PyVal.int 345600, PyVal.str "1.2.3.4", PyVal.none, PyVal.none]]
      = .ok [[PyVal.str "345600", PyVal.str "1.2.3.4", PyVal.str "", PyVal.str ""]]
    ∧ ([[PyVal.str "345600", PyVal.str "1.2.3.4", PyVal.str "", PyVal.str ""]] :
          List (List PyVal))
      ≠ [[PyVal.int 345600, PyVal.str "1.2.3.4", PyVal.none, PyVal.none]] :=
  ⟨rfl, by decide⟩

theorem mapM_ok_of_all {α β : Type} (f : α → Except PyErr β) (g : α → β) :
    ∀ l : List α, (∀ x ∈ l, f x = .ok (g x)) → l.mapM f = .ok (l.map g) := by
  intro l
  induction l with
  | nil => intro; rfl
  | cons a t ih =>
    intro h
    rw [List.mapM_cons, h a (by simp), ih (fun x hx => h x (by simp [hx]))]
    rfl

theorem sqliteStoreCell_id (ty : FieldTy) (v : PyVal)
    (h : tyMatches ty v = true) :
    sqliteStoreCell (SQL_TYPE ty) v = .ok v := by
  cases ty <;> cases v <;> simp_all [tyMatches, sqliteStoreCell, SQL_TYPE]

theorem storeRow_ok (fields : List (String × FieldTy)) :
    ∀ item : List PyVal, fields.length = item.length →
    (fields.zip item).all (fun fv => tyMatches fv.1.2 fv.2) = true →
    ((fields.map (fun f => (f.1, SQL_TYPE f.2))).zip item).mapM
        (fun cv => sqliteStoreCell cv.1.2 cv.2) = .ok item := by
  induction fields with
  | nil =>
    intro item hl _
    cases item with
    | nil => rfl
    | cons v vs => simp at hl
  | cons f fs ih =>
    intro item hl hall
    cases item with
    | nil => simp at hl
    | cons v vs =>
      simp only [List.zip_cons_cons, List.all_cons, Bool.and_eq_true] at hall
      simp only [List.map_cons, List.zip_cons_cons, List.mapM_cons]
      rw [show sqliteStoreCell ((f.1, SQL_TYPE f.2), v).1.2 ((f.1, SQL_TYPE f.2), v).2
            = sqliteStoreCell (SQL_TYPE f.2) v from rfl]
      rw [sqliteStoreCell_id _ _ hall.1]
      rw [ih vs (by simpa using hl) hall.2]
      rfl

theorem sqliteRoundTrip_ok (it : ItemTupleSpec) (tf : String)
    (items : List (List PyVal)) (hne : fieldNames it ≠ [])
    (h : ∀ item ∈ items, wellTypedItem it item = true) :
    sqliteRoundTrip it tf items = .ok items := by
  have hrows : items.mapM (fun item =>
      if item.length = (it.fields.map (fun f => (f.1, SQL_TYPE f.2))).length then
        ((it.fields.map (fun f => (f.1, SQL_TYPE f.2))).zip item).mapM
          (fun cv => sqliteStoreCell cv.1.2 cv.2)
      else throw (.valueError "incorrect number of bindings supplied"))
      = .ok items := by
    have hall : ∀ item ∈ items, (fun item =>
        if item.length = (it.fields.map (fun f => (f.1, SQL_TYPE f.2))).length then
          ((it.fields.map (fun f => (f.1, SQL_TYPE f.2))).zip item).mapM
            (fun cv => sqliteStoreCell cv.1.2 cv.2)
        else throw (.valueError "incorrect number of bindings supplied")) item
        = .ok (id item) := by
      intro item hitem
      have hw := h item hitem
      unfold wellTypedItem at hw
      rw [Bool.and_eq_true] at hw
      have hlen : item.length = it.fields.length := by simpa using hw.1
      simp only [List.length_map, hlen, if_pos, id]
      exact storeRow_ok it.fields item hlen.symm hw.2
    have := mapM_ok_of_all _ id items hall
    simpa using this
  simp only [sqliteRoundTrip, sqliteWriteAll]
  rw [hrows]
  simp only [except_bind_ok, pure, Except.pure]
  simp only [sqliteReadAll]
  have hcols : (it.fields.map (fun f => (f.1, SQL_TYPE f.2))).map (·.1)
      = fieldNames it := by
    rw [List.map_map]; rfl
  simp [hcols, itemReaderChecks, hne, Bind.bind, Except.bind, pure, Except.pure]

theorem map_strCell_id (item : List PyVal)
    (h : ∀ v ∈ item, ∃ s, v = PyVal.str s) :
    (item.map csvCell).map PyVal.str = item := by
  induction item with
  | nil => rfl
  | cons v vs ih =>
    obtain ⟨s, rfl⟩ := h v (by simp)
    simp only [List.map_cons, csvCell]
    rw [ih (fun w hw => h w (by simp [hw]))]

theorem csvRoundTrip_strings (it : ItemTupleSpec) (items : List (List PyVal))
    (hne : fieldNames it ≠ [])
    (hnum : (fieldNames it).any pyIsNumeric = false)
    (hitems : ∀ item ∈ items, item.length = it.fields.length
        ∧ ∀ v ∈ item, ∃ s, v = PyVal.str s) :
    csvRoundTrip it items = .ok items := by
  simp only [csvRoundTrip, csvWriteAll, csvReadAll, hnum, Bool.false_eq_true, if_false]
  have hchecks : itemReaderChecks (fieldNames it) (fieldNames it) = .ok () := by
    simp [itemReaderChecks, hne]
  rw [hchecks]
  simp only [except_bind_ok]
  have hall : ∀ r ∈ items.map (fun item => item.map csvCell), (fun r =>
      if r.length = it.fields.length then
        (pure (r.map PyVal.str) : Except PyErr (List PyVal))
      else throw PyErr.typeError) r = .ok (r.map PyVal.str) := by
    intro r hr
    obtain ⟨item, hitem, rfl⟩ := List.mem_map.mp hr
    have hi := hitems item hitem
    simp only [List.length_map, hi.1, if_pos]
    rfl
  rw [mapM_ok_of_all _ (fun r => r.map PyVal.str) _ hall]
  have hmaps : ∀ item ∈ items,
      ((fun item : List PyVal => item.map csvCell) item).map PyVal.str = id item := by
    intro item h
    exact map_strCell_id item (hitems item h).2
  rw [List.map_map]
  rw [show (List.map PyVal.str ∘ fun item : List PyVal => item.map csvCell)
        = fun item : List PyVal => (item.map csvCell).map PyVal.str from rfl]
  rw [List.map_congr_left hmaps, List.map_id]


/-- C1 amended: the round-trip law holds for the SQLite backend — writing
any sequence of well-typed records of a variant (whose field list, like
those of all three variants, is nonempty) and reading it back with the
matching SQLiteReader returns the original sequence — while for the CSV
backend reading returns every field as text, so the round trip returns
the original sequence exactly when every field value is a string; the
JSON and AWK backends have no readers in the code at all. -/
theorem roundTrip_amended :
    (∀ (it : ItemTupleSpec) (tf : String) (items : List (List PyVal)),
        fieldNames it ≠ [] →
        (∀ item ∈ items, wellTypedItem it item = true) →
        sqliteRoundTrip it tf items = .ok items)
    ∧ (∀ (it : ItemTupleSpec) (items : List (List PyVal)),
        fieldNames it ≠ [] →
        (fieldNames it).any pyIsNumeric = false →
        (∀ item ∈ items, item.length = it.fields.length
            ∧ ∀ v ∈ item, ∃ s, v = PyVal.str s) →
        csvRoundTrip it items = .ok items) :=
  ⟨sqliteRoundTrip_ok, csvRoundTrip_strings⟩

/-- Witness for the amended C1: a concrete CountmeItem record survives the
SQLite round trip, and a concrete all-string MirrorItem record survives
the CSV round trip. -/
theorem roundTrip_amended_witness :
    sqliteRoundTrip CountmeItem "timestamp"
        [[PyVal.int 1585497868, PyVal.str "1.2.3.4", PyVal.str "Fedora",
          PyVal.str "32", PyVal.str "workstation", PyVal.str "x86_64",
          PyVal.int 3, PyVal.str "updates", PyVal.str "x86_64"]]
      = .ok [[PyVal.int 1585497868, PyVal.str "1.2.3.4", PyVal.str "Fedora",
          PyVal.str "32", PyVal.str "workstation", PyVal.str "x86_64",
          PyVal.int 3, PyVal.str "updates", PyVal.str "x86_64"]]
    ∧ csvRoundTrip MirrorItem
        [[PyVal.str "345600", PyVal.str "h", PyVal.str "r", PyVal.str "a"]]
      = .ok [[PyVal.str "345600", PyVal.str "h", PyVal.str "r", PyVal.str "a"]] :=
  ⟨roundTrip_amended.1 CountmeItem "timestamp" _ (by decide)
      (by
        intro item h
        simp only [List.mem_singleton] at h
        subst h
        decide),
   roundTrip_amended.2 MirrorItem _ (by decide) (by decide)
      (by
        intro item h
        simp only [List.mem_singleton] at h
        subst h
        refine ⟨by decide, ?_⟩
        intro v hv
        fin_cases hv <;> exact ⟨_, rfl⟩)⟩

end Countme

namespace Countme

/-! ## C7 -/

theorem dictGet_insert (d : List (String × String)) (kv : String × String)
    (k : String) :
    dictGet (pyDictInsert d kv) k
      = if kv.1 = k then some kv.2 else dictGet d k := by
  induction d with
  | nil =>
    by_cases h : kv.1 = k <;> simp [pyDictInsert, dictGet, List.find?, h]
  | cons p rest ih =>
    by_cases hpk : p.1 = kv.1
    · simp only [pyDictInsert, hpk, if_pos]
      by_cases hk : kv.1 = k
      · have : p.1 = k := by rw [hpk, hk]
        simp [dictGet, List.find?, this, hk]
      · have : ¬ p.1 = k := by rw [hpk]; exact hk
        simp [dictGet, List.find?, this, hk]
    · simp only [pyDictInsert, hpk, if_neg, not_false_iff]
      by_cases hp : p.1 = k
      · have hkk : ¬ kv.1 = k := by
          intro hx
          exact hpk (by rw [hp, hx])
        simp [dictGet, List.find?, hp, hkk]
      · simp only [dictGet, List.find?] at *
        simp [hp, ih]

theorem dictGet_pyDict (k : String) : ∀ l : List (String × String),
    dictGet (pyDict l) k = lastValue k l := by
  intro l
  induction l using List.reverseRecOn with
  | nil => rfl
  | append_singleton l p ih =>
    unfold pyDict at ih ⊢
    rw [List.foldl_append, List.foldl_cons, List.foldl_nil, dictGet_insert]
    unfold lastValue at ih ⊢
    rw [List.filter_append]
    by_cases hp : p.1 = k
    · simp [hp, List.getLast?_concat]
    · simp [hp, ih]

/-- C7: for every query string, the query mapping is last-value-wins — the
dict lookup of any key equals the value of the last occurrence of that key
among the decoded pairs — with the spec's concrete example, and the
ordered pair view returns the decoded (key, value) pairs in their order of
occurrence. -/
theorem querydict_last_wins :
    (∀ querystr k : String,
        dictGet (parse_querydict querystr) k = lastValue k (parse_qsl querystr))
    ∧ parse_querydict "repo=a&repo=b&arch=x" = [("repo", "b"), ("arch", "x")]
    ∧ (∀ query : String, queryitems query = parse_qsl query)
    ∧ queryitems "repo=a&repo=b&arch=x"
        = [("repo", "a"), ("repo", "b"), ("arch", "x")] :=
  ⟨fun qs k => dictGet_pyDict k (parse_qsl qs), rfl, fun _ => rfl, rfl⟩

/-! ## C4 -/

/-- C4 fails as stated: iterating one matched line whose countme capture
converts cleanly to the integer 3 still raises — the garbage time capture
fails timestamp parsing during record construction — so "iteration raises"
is not equivalent to "a required numeric capture fails conversion". -/
theorem iterItems_raises_without_numeric_failure :
    (iterItems c4Match countme_make_item ["badline"]).2
      = some (.valueError "not enough values to unpack")
    ∧ pyIntOfOption (dictGet (parse_querydict c4BadCaps.query) "countme")
      = .ok 3
    ∧ c4Match "badline" = some c4BadCaps :=
  ⟨rfl, rfl, rfl⟩

/-- C4 amended: iterating a Line Matcher never raises for lines the
extraction pattern does not match — they are silently skipped and produce
no record — and iteration raises exactly when some matched line's record
construction fails; for the countme matcher, record construction fails
exactly when the captured time fails timestamp parsing or the captured
countme query value fails integer conversion (including when absent). -/
theorem iterItems_raises_iff :
    (∀ (κ α : Type) (regexMatch : String → Option κ)
        (make_item : κ → Except PyErr α) (lines : List String),
        (iterItems regexMatch make_item lines).2.isSome = true
          ↔ ∃ line ∈ lines, ∃ m, regexMatch line = some m
              ∧ (make_item m).isOk = false)
    ∧ (∀ m : CountmeCaps,
        (countme_make_item m).isOk = false
          ↔ ((parse_logtime m.time).isOk = false
              ∨ (pyIntOfOption (dictGet (parse_querydict m.query)
                    "countme")).isOk = false)) := by
  constructor
  · intro κ α regexMatch make_item lines
    induction lines with
    | nil => simp [iterItems]
    | cons line rest ih =>
      cases hm : regexMatch line with
      | none =>
        simp only [iterItems, hm]
        rw [ih]
        constructor
        · rintro ⟨l, hl, m, hlm, hmo⟩
          exact ⟨l, by simp [hl], m, hlm, hmo⟩
        · rintro ⟨l, hl, m, hlm, hmo⟩
          rcases List.mem_cons.mp hl with rfl | hl2
          · rw [hm] at hlm
            cases hlm
          · exact ⟨l, hl2, m, hlm, hmo⟩
      | some m =>
        cases hmk : make_item m with
        | error e =>
          simp only [iterItems, hm, hmk]
          constructor
          · intro _
            exact ⟨line, by simp, m, hm, by rw [hmk]; rfl⟩
          · intro _
            rfl
        | ok item =>
          simp only [iterItems, hm, hmk]
          cases hrec : iterItems regexMatch make_item rest with
          | mk items err =>
            rw [hrec] at ih
            constructor
            · intro hs
              obtain ⟨l, hl, m2, hlm, hmo⟩ := ih.mp hs
              exact ⟨l, by simp [hl], m2, hlm, hmo⟩
            · rintro ⟨l, hl, m2, hlm, hmo⟩
              rcases List.mem_cons.mp hl with rfl | hl2
              · rw [hm] at hlm
                injection hlm with hmm
                subst hmm
                rw [hmk] at hmo
                simp [Except.isOk, Except.toBool] at hmo
              · exact ih.mpr ⟨l, hl2, m2, hlm, hmo⟩
  · intro m
    cases hp : parse_logtime m.time with
    | error e =>
      simp [countme_make_item, hp, Bind.bind, Except.bind, Except.isOk,
        Except.toBool]
    | ok dt =>
      cases hc : pyIntOfOption (dictGet (parse_querydict m.query) "countme") with
      | error e =>
        simp [countme_make_item, hp, hc, Bind.bind, Except.bind, Except.isOk,
          Except.toBool]
      | ok n =>
        simp [countme_make_item, hp, hc, Bind.bind, Except.bind, Except.isOk,
          Except.toBool]

end Countme

namespace Countme

/-! ## C8 -/

/-- C8 fails as stated: this 27-character input does not have the fixed
delimiter/token structure (a trailing character after the offset minutes),
yet `parse_logtime` returns an instant rather than failing — the offset
token is processed by fixed-position slicing, which ignores anything after
its first five characters. -/
theorem parse_logtime_accepts_structure_violation :
    fixedFormStructure "01/Jan/2020:00:00:00 +0000x".data = false
    ∧ parse_logtime "01/Jan/2020:00:00:00 +0000x"
        = .ok ⟨2020, 1, 1, 0, 0, 0, 0, 0⟩ :=
  ⟨rfl, rfl⟩

/-- C8 amended: `parse_logtime` returns an instant only when the input
splits on the single space into a date-time part and an offset part, the
date-time part splits on colons into four pieces whose first splits on
slashes into three, the month token is recognized, every numeric component
parses as an integer, and the offset is either a UTC literal or has
parseable hour and minute digits at positions 1-4 — the offset being
inspected only by position slicing, so that trailing characters after the
offset minutes are not rejected.  Contrapositively, any failure of those
delimiter/month/numeric conditions makes `parse_logtime` raise. -/
theorem parse_logtime_ok_inversion (s : List Char) (dt : PyDatetime)
    (h : parseLogtimeCh s = .ok dt) :
    ∃ dtp off dateCh hh mm ss dd mon yyyy,
      pysplit ' ' 1 s = [dtp, off]
      ∧ pysplit ':' 3 dtp = [dateCh, hh, mm, ss]
      ∧ pysplit '/' 2 dateCh = [dd, mon, yyyy]
      ∧ (MONTHIDX mon).isSome = true
      ∧ (pyIntCh yyyy).isOk = true
      ∧ (pyIntCh dd).isOk = true
      ∧ (pyIntCh hh).isOk = true
      ∧ (pyIntCh mm).isOk = true
      ∧ (pyIntCh ss).isOk = true
      ∧ (off = "+0000".data ∨ off = "-0000".data
          ∨ ((pyIntCh (pyslice off 1 3)).isOk = true
              ∧ (pyIntCh (pyslice off 3 5)).isOk = true)) := by
  unfold parseLogtimeCh at h
  split at h
  case _ dtp off hsp1 =>
    split at h
    case _ dateCh hh mm ss hsp2 =>
      split at h
      case _ dd mon yyyy hsp3 =>
        refine ⟨dtp, off, dateCh, hh, mm, ss, dd, mon, yyyy, hsp1, hsp2, hsp3, ?_⟩
        simp only [Bind.bind] at h
        cases htz : logtimeTz off with
        | error e => rw [htz] at h; simp [Except.bind] at h
        | ok tz =>
        rw [htz] at h
        simp only [Except.bind] at h
        cases hy : pyIntCh yyyy with
        | error e => rw [hy] at h; simp [Except.bind] at h
        | ok y =>
        rw [hy] at h
        simp only [Except.bind] at h
        cases hmo : monthIdxOf mon with
        | error e => rw [hmo] at h; simp [Except.bind] at h
        | ok mo =>
        rw [hmo] at h
        simp only [Except.bind] at h
        cases hd : pyIntCh dd with
        | error e => rw [hd] at h; simp [Except.bind] at h
        | ok d =>
        rw [hd] at h
        simp only [Except.bind] at h
        cases hh2 : pyIntCh hh with
        | error e => rw [hh2] at h; simp [Except.bind] at h
        | ok hv =>
        rw [hh2] at h
        simp only [Except.bind] at h
        cases hmi : pyIntCh mm with
        | error e => rw [hmi] at h; simp [Except.bind] at h
        | ok miv =>
        rw [hmi] at h
        simp only [Except.bind] at h
        cases hs2 : pyIntCh ss with
        | error e => rw [hs2] at h; simp [Except.bind] at h
        | ok sv =>
        have hmon : (MONTHIDX mon).isSome = true := by
          unfold monthIdxOf at hmo
          cases hmx : MONTHIDX mon with
          | none => rw [hmx] at hmo; cases hmo
          | some m => rfl
        refine ⟨hmon, rfl, rfl, rfl, rfl, rfl, ?_⟩
        unfold logtimeTz at htz
        by_cases hfast : off = "+0000".data ∨ off = "-0000".data
        · rcases hfast with hf | hf
          · exact Or.inl hf
          · exact Or.inr (Or.inl hf)
        · refine Or.inr (Or.inr ?_)
          rw [if_neg hfast] at htz
          unfold offset_to_timezone at htz
          simp only [Bind.bind] at htz
          cases ho1 : pyIntCh (pyslice off 1 3) with
          | error e => rw [ho1] at htz; simp [Except.bind] at htz
          | ok o1 =>
          rw [ho1] at htz
          simp only [Except.bind] at htz
          cases ho2 : pyIntCh (pyslice off 3 5) with
          | error e => rw [ho2] at htz; simp [Except.bind] at htz
          | ok o2 =>
          exact ⟨rfl, rfl⟩
      all_goals simp at h
    all_goals simp at h
  all_goals simp at h

/-- Witness for the amended C8 at a well-formed timestamp. -/
theorem parse_logtime_ok_inversion_witness :
    parseLogtimeCh "29/Mar/2020:16:04:28 +0000".data
      = .ok ⟨2020, 3, 29, 16, 4, 28, 0, 0⟩
    ∧ ∃ dtp off dateCh hh mm ss dd mon yyyy,
      pysplit ' ' 1 "29/Mar/2020:16:04:28 +0000".data = [dtp, off]
      ∧ pysplit ':' 3 dtp = [dateCh, hh, mm, ss]
      ∧ pysplit '/' 2 dateCh = [dd, mon, yyyy]
      ∧ (MONTHIDX mon).isSome = true
      ∧ (pyIntCh yyyy).isOk = true
      ∧ (pyIntCh dd).isOk = true
      ∧ (pyIntCh hh).isOk = true
      ∧ (pyIntCh mm).isOk = true
      ∧ (pyIntCh ss).isOk = true
      ∧ (off = "+0000".data ∨ off = "-0000".data
          ∨ ((pyIntCh (pyslice off 1 3)).isOk = true
              ∧ (pyIntCh (pyslice off 3 5)).isOk = true)) :=
  ⟨rfl, parse_logtime_ok_inversion "29/Mar/2020:16:04:28 +0000".data
      ⟨2020, 3, 29, 16, 4, 28, 0, 0⟩ rfl⟩

end Countme
